import Mathlib

/-!
Verification of the nutrient value pipeline and layout engine of the
Colombian nutrition-facts label generator (`app.py`).

Numeric code is embedded over `ℚ` (Python floats with exact arithmetic);
Python's built-in `round()` and fixed-point f-string formatting are
modelled by round-half-to-even on rationals.  String-producing formatters
return Lean `String`s built the way the corresponding f-strings are.
-/

namespace Tabla

/-- Python banker's rounding (round half to even) to an integer, as used by
the built-in `round()` and by fixed-point f-string formatting. -/
def py_round (q : ℚ) : ℤ :=
  if q - ⌊q⌋ < 1/2 then ⌊q⌋
  else if 1/2 < q - ⌊q⌋ then ⌊q⌋ + 1
  else if ⌊q⌋ % 2 = 0 then ⌊q⌋ else ⌊q⌋ + 1

/-- `round_kcal` (app.py:62-77): energy of at most 4 kcal declares exactly
0, otherwise the exact computed value is declared unchanged. -/
def round_kcal (v : ℚ) : ℚ :=
  if v ≤ 4 then 0 else v

/-- `round_g` (app.py:88-91): magnitudes of at least 100 round to whole
grams, otherwise to one decimal place. -/
def round_g (v : ℚ) : ℚ :=
  if 100 ≤ |v| then (py_round v : ℚ) else (py_round (v * 10) : ℚ) / 10

/-- `round_mg` (app.py:93-95): values strictly below 5 mg declare 0,
otherwise round to the nearest integer. -/
def round_mg (v_mg : ℚ) : ℤ :=
  if v_mg < 5 then 0 else py_round v_mg

/-- `kcal_from_macros` (app.py:54-55). -/
def kcal_from_macros (fat_g carb_g protein_g organic_acids_g alcohol_g : ℚ) : ℚ :=
  9 * fat_g + 4 * carb_g + 4 * protein_g + 7 * alcohol_g + 3 * organic_acids_g

/-- `portion_from_per100` (app.py:57-60). -/
def portion_from_per100 (value_per100 portion_size : ℚ) : ℚ :=
  if 0 < portion_size then value_per100 * portion_size / 100 else 0

/-- Threshold table of `nonsig_zero_g` (app.py:448-455).  Note that it has
no entry for "Grasas trans". -/
def limits_g : List (String × ℚ) :=
  [("Carbohidratos totales", 1/2),
   ("Azúcares totales", 1/2),
   ("Proteína", 1/2),
   ("Grasa total", 1/2),
   ("Fibra dietaria", 1/2),
   ("Grasa saturada", 1/10)]

/-- `nonsig_zero_g` (app.py:447-456): zero the value when it is at or below
the table threshold for `name`; a name absent from the table defaults to a
threshold of −1, so such a value is never zeroed. -/
def nonsig_zero_g (name : String) (v : ℚ) : ℚ :=
  if v ≤ ((limits_g.lookup name).getD (-1)) then 0 else v

/-- Threshold table of `nonsig_zero_mg` (app.py:460-463). -/
def limits_mg : List (String × ℚ) :=
  [("Grasas trans", 100), ("Sodio", 5)]

/-- `nonsig_zero_mg` (app.py:459-464).  Defined in the source but never
called from any of the per-100 / per-portion rounding assignments. -/
def nonsig_zero_mg (name : String) (v : ℚ) : ℚ :=
  if v ≤ ((limits_mg.lookup name).getD (-1)) then 0 else v

-- Per-100 declared (rounded) values, app.py:468-480.

def fat_total_100_r (fat_total_100 : ℚ) : ℚ :=
  round_g (nonsig_zero_g "Grasa total" fat_total_100)

def sat_fat_100_r (sat_fat_100 : ℚ) : ℚ :=
  round_g (nonsig_zero_g "Grasa saturada" sat_fat_100)

def carb_100_r (carb_100 : ℚ) : ℚ := round_g carb_100

def sug_total_100_r (sug_total_100 : ℚ) : ℚ := round_g sug_total_100

def sug_added_100_r (sug_added_100 : ℚ) : ℚ := round_g sug_added_100

def fiber_100_r (fiber_100 : ℚ) : ℚ := round_g fiber_100

def protein_100_r (protein_100 : ℚ) : ℚ := round_g protein_100

def sodium_100_mg_r (sodium_100_mg : ℚ) : ℤ := round_mg sodium_100_mg

def mono_fat_100_r (mono_fat_100 : ℚ) : ℚ := round_g mono_fat_100

def poly_fat_100_r (poly_fat_100 : ℚ) : ℚ := round_g poly_fat_100

/-- `trans_fat_100_mg_r` (app.py:478-480): the per-100 mg value is converted
to grams, passed through `nonsig_zero_g "Grasas trans"`, converted back to
mg and rounded. -/
def trans_fat_100_mg_r (trans_fat_100_mg : ℚ) : ℤ :=
  round_mg (nonsig_zero_g "Grasas trans" (trans_fat_100_mg / 1000) * 1000)

-- Per-portion declared (rounded) values, app.py:483-496.

def sodium_pp_mg_r (sodium_pp_mg : ℚ) : ℤ := round_mg sodium_pp_mg

/-- `trans_fat_pp_mg_r` (app.py:493-496): per-portion trans fat is rounded
directly, with no non-significant zeroing step. -/
def trans_fat_pp_mg_r (trans_fat_pp_mg : ℚ) : ℤ :=
  round_mg ((trans_fat_pp_mg / 1000) * 1000)

-- Basic facts about `py_round`.

lemma py_round_eval (q : ℚ) (n : ℤ) (h1 : (n : ℚ) - 1/2 < q) (h2 : q < (n : ℚ) + 1/2) :
    py_round q = n := by
  unfold py_round
  rcases le_or_lt (n : ℚ) q with hn | hn
  · have hf : ⌊q⌋ = n := Int.floor_eq_iff.mpr ⟨hn, by linarith⟩
    rw [hf, if_pos (by linarith)]
  · have hf : ⌊q⌋ = n - 1 := Int.floor_eq_iff.mpr ⟨by push_cast; linarith, by push_cast; linarith⟩
    rw [hf, if_neg (by push_cast; linarith), if_pos (by push_cast; linarith)]
    omega

lemma py_round_bounds (q : ℚ) :
    q - 1/2 ≤ (py_round q : ℚ) ∧ (py_round q : ℚ) ≤ q + 1/2 := by
  have hf1 : ((⌊q⌋ : ℤ) : ℚ) ≤ q := Int.floor_le q
  have hf2 : q < (⌊q⌋ : ℚ) + 1 := Int.lt_floor_add_one q
  unfold py_round
  split_ifs with h1 h2 h3 <;> constructor <;> push_cast <;> linarith

lemma py_round_intCast (n : ℤ) : py_round ((n : ℤ) : ℚ) = n := by
  unfold py_round
  rw [Int.floor_intCast]
  norm_num

lemma not_hundred_le_abs (q : ℚ) (h0 : 0 ≤ q) (h : q < 100) : ¬ 100 ≤ |q| := by
  rw [abs_of_nonneg h0]
  exact not_le.mpr h

lemma round_g_small_eval (v : ℚ) (n : ℤ) (h0 : 0 ≤ v) (h1 : v < 100)
    (hn1 : (n : ℚ) - 1/2 < v * 10) (hn2 : v * 10 < (n : ℚ) + 1/2) :
    round_g v = (n : ℚ) / 10 := by
  rw [round_g, if_neg (not_hundred_le_abs v h0 h1), py_round_eval (v * 10) n hn1 hn2]

/-- C4.  `round_kcal` declares 0 exactly for energies at most 4 kcal, and
above 4 kcal it is the identity: the exact computed value is declared with
no approximation. -/
theorem c4_round_kcal_spec (v : ℚ) :
    (round_kcal v = 0 ↔ v ≤ 4) ∧ (4 < v → round_kcal v = v) := by
  unfold round_kcal
  by_cases h : v ≤ 4
  · rw [if_pos h]
    exact ⟨⟨fun _ => h, fun _ => rfl⟩, fun hv => absurd h (not_le.mpr hv)⟩
  · rw [if_neg h]
    push_neg at h
    refine ⟨⟨fun h0 => ?_, fun h4 => absurd h4 (not_le.mpr h)⟩, fun _ => rfl⟩
    rw [h0]
    norm_num

/-- C4 witness: at 5 kcal the declared value is exactly 5, and at 3 kcal
the zeroing test of the biconditional holds. -/
theorem c4_round_kcal_spec_witness :
    round_kcal 5 = 5 ∧ (round_kcal 3 = 0 ↔ (3 : ℚ) ≤ 4) :=
  ⟨(c4_round_kcal_spec 5).2 (by norm_num), (c4_round_kcal_spec 3).1⟩

/-- C10.  `round_mg` only ever returns 0 or an integer at least 5: every
input below 5 collapses to 0 and every input of at least 5 rounds to an
integer of at least 5, so a declared milligram value is never negative and
never strictly between 0 and 5. -/
theorem c10_round_mg_range (v : ℚ) : round_mg v = 0 ∨ 5 ≤ round_mg v := by
  unfold round_mg
  by_cases h : v < 5
  · left
    rw [if_pos h]
  · right
    rw [if_neg h]
    push_neg at h
    have hb := (py_round_bounds v).1
    have h4 : (4 : ℤ) < py_round v := by
      exact_mod_cast (by linarith : (4 : ℚ) < (py_round v : ℚ))
    omega

/-- C6 counterexample: at a raw sodium value of exactly 5 mg the declared
value is 5, not 0 — the zeroing cut-off of `round_mg` is strict, so the
"inclusive at exactly 5 mg" claim fails on the code. -/
theorem c6_sodium_inclusive_counterexample :
    sodium_100_mg_r 5 = 5 ∧ (5 : ℤ) ≠ 0 := by
  constructor
  · unfold sodium_100_mg_r round_mg
    rw [if_neg (by norm_num)]
    exact py_round_eval 5 5 (by norm_num) (by norm_num)
  · decide

/-- C6 (amended).  For every raw sodium value strictly below 5 mg, per-100
or per-portion, the declared rounded value is 0; the threshold is
exclusive at exactly 5 mg and lives inside `round_mg` itself (there is no
separate pre-rounding zeroing step on the sodium path). -/
theorem c6_sodium_strict_threshold (v : ℚ) (h : v < 5) :
    round_mg v = 0 ∧ sodium_100_mg_r v = 0 ∧ sodium_pp_mg_r v = 0 := by
  simp [round_mg, sodium_100_mg_r, sodium_pp_mg_r, if_pos h]

/-- C6 witness: 4.9 mg of sodium declares 0. -/
theorem c6_sodium_strict_threshold_witness :
    (49 : ℚ)/10 < 5 ∧ sodium_100_mg_r ((49 : ℚ)/10) = 0 :=
  ⟨by norm_num, (c6_sodium_strict_threshold ((49 : ℚ)/10) (by norm_num)).2.1⟩

/-- C1.  A raw per-100 trans fat of 80 mg is NOT zeroed: `nonsig_zero_g`
has no "Grasas trans" entry, so its `.get(name, -1)` default applies and
the declared per-100 value is 80 mg, not 0.  Per-portion trans fat of
32 mg (from per-100 = 80 mg at a 40 g portion) is rounded directly to 32,
as the claim says.  The dead `nonsig_zero_mg` table WOULD have zeroed the
80 mg per-100 value, witnessing the intended threshold. -/
theorem c1_trans_fat_100_not_zeroed :
    trans_fat_100_mg_r 80 = 80 ∧
    trans_fat_pp_mg_r 32 = 32 ∧
    portion_from_per100 80 40 = 32 ∧
    nonsig_zero_g "Grasas trans" (80/1000) = 80/1000 ∧
    nonsig_zero_mg "Grasas trans" 80 = 0 := by
  have hz : nonsig_zero_g "Grasas trans" (80/1000) = 80/1000 := by
    rw [nonsig_zero_g, show (limits_g.lookup "Grasas trans").getD (-1) = -1 from rfl,
      if_neg (by norm_num)]
  refine ⟨?_, ?_, ?_, hz, ?_⟩
  · rw [trans_fat_100_mg_r, show ((80 : ℚ)/1000) = (80 : ℚ)/1000 from rfl, hz,
      show ((80 : ℚ)/1000) * 1000 = 80 from by norm_num, round_mg,
      if_neg (by norm_num)]
    exact py_round_eval 80 80 (by norm_num) (by norm_num)
  · rw [trans_fat_pp_mg_r, show ((32 : ℚ)/1000) * 1000 = 32 from by norm_num, round_mg,
      if_neg (by norm_num)]
    exact py_round_eval 32 32 (by norm_num) (by norm_num)
  · rw [portion_from_per100, if_pos (by norm_num)]
    norm_num
  · rw [nonsig_zero_mg, show (limits_mg.lookup "Grasas trans").getD (-1) = 100 from rfl,
      if_pos (by norm_num)]

/-- C3.  The per-100 declared values of total carbohydrate, total sugars,
protein and fiber are produced by `round_g` on the raw value with NO
non-significant zeroing: at a raw 0.3 g each declares 0.3, although the
threshold table of `nonsig_zero_g` itself (0-0.5 → 0) would have zeroed
each of them had it been applied, as the spec requires. -/
theorem c3_per100_zeroing_not_applied :
    carb_100_r (3/10) = 3/10 ∧
    sug_total_100_r (3/10) = 3/10 ∧
    protein_100_r (3/10) = 3/10 ∧
    fiber_100_r (3/10) = 3/10 ∧
    nonsig_zero_g "Carbohidratos totales" (3/10) = 0 ∧
    nonsig_zero_g "Azúcares totales" (3/10) = 0 ∧
    nonsig_zero_g "Proteína" (3/10) = 0 ∧
    nonsig_zero_g "Fibra dietaria" (3/10) = 0 := by
  have hr : round_g (3/10 : ℚ) = 3/10 := by
    rw [round_g_small_eval (3/10) 3 (by norm_num) (by norm_num) (by norm_num) (by norm_num)]
    norm_num
  refine ⟨hr, hr, hr, hr, ?_, ?_, ?_, ?_⟩
  · rw [nonsig_zero_g, show (limits_g.lookup "Carbohidratos totales").getD (-1) = 1/2 from rfl,
      if_pos (by norm_num)]
  · rw [nonsig_zero_g, show (limits_g.lookup "Azúcares totales").getD (-1) = 1/2 from rfl,
      if_pos (by norm_num)]
  · rw [nonsig_zero_g, show (limits_g.lookup "Proteína").getD (-1) = 1/2 from rfl,
      if_pos (by norm_num)]
  · rw [nonsig_zero_g, show (limits_g.lookup "Fibra dietaria").getD (-1) = 1/2 from rfl,
      if_pos (by norm_num)]

lemma round_g_hundred : round_g (100 : ℚ) = 100 := by
  rw [round_g, if_pos (by rw [abs_of_nonneg (by norm_num : (0:ℚ) ≤ 100)]),
    show (100 : ℚ) = ((100 : ℤ) : ℚ) from by norm_num, py_round_intCast]

lemma round_g_neg_hundred : round_g (-100 : ℚ) = -100 := by
  rw [round_g, if_pos (by rw [abs_of_nonpos (by norm_num : (-100:ℚ) ≤ 0)]; norm_num),
    show (-100 : ℚ) = ((-100 : ℤ) : ℚ) from by norm_num, py_round_intCast]

/-- C9.  `round_g` rounds to whole grams at magnitudes of 100 and above and
to one decimal place below that, and it is idempotent: rounding an
already-rounded value changes nothing. -/
theorem c9_round_g_spec (v : ℚ) :
    (100 ≤ |v| → ∃ n : ℤ, round_g v = (n : ℚ)) ∧
    (|v| < 100 → ∃ n : ℤ, round_g v = (n : ℚ) / 10) ∧
    round_g (round_g v) = round_g v := by
  refine ⟨fun h => ⟨py_round v, by rw [round_g, if_pos h]⟩,
          fun h => ⟨py_round (v * 10), by rw [round_g, if_neg (not_le.mpr h)]⟩, ?_⟩
  by_cases h : 100 ≤ |v|
  · have hb := py_round_bounds v
    have habs : 100 ≤ |((py_round v : ℤ) : ℚ)| := by
      rcases abs_cases v with ⟨he, hp⟩ | ⟨he, hn⟩
      · have hv : (100 : ℚ) ≤ v := he ▸ h
        have h99 : (99 : ℤ) < py_round v := by
          exact_mod_cast (by linarith [hb.1] : (99 : ℚ) < (py_round v : ℚ))
        rw [abs_of_nonneg (by exact_mod_cast (by omega : (0:ℤ) ≤ py_round v))]
        exact_mod_cast (by omega : (100 : ℤ) ≤ py_round v)
      · have hv : v ≤ (-100 : ℚ) := by rw [he] at h; linarith
        have h99 : py_round v < (-99 : ℤ) := by
          exact_mod_cast (by linarith [hb.2] : (py_round v : ℚ) < (-99 : ℚ))
        rw [abs_of_nonpos (by exact_mod_cast (by omega : py_round v ≤ (0:ℤ)))]
        rw [show -((py_round v : ℤ) : ℚ) = ((-(py_round v) : ℤ) : ℚ) from by push_cast; ring]
        exact_mod_cast (by omega : (100 : ℤ) ≤ -(py_round v))
    have hv_eq : round_g v = ((py_round v : ℤ) : ℚ) := by rw [round_g, if_pos h]
    rw [hv_eq, round_g, if_pos habs, py_round_intCast]
  · push_neg at h
    have hb := py_round_bounds (v * 10)
    have hva := abs_lt.mp h
    have hm_le : py_round (v * 10) ≤ 1000 := by
      have hq : (py_round (v * 10) : ℚ) < 1001 := by linarith [hb.2, hva.2]
      have : py_round (v * 10) < (1001 : ℤ) := by exact_mod_cast hq
      omega
    have hm_ge : (-1000 : ℤ) ≤ py_round (v * 10) := by
      have hq : (-1001 : ℚ) < (py_round (v * 10) : ℚ) := by linarith [hb.1, hva.1]
      have : (-1001 : ℤ) < py_round (v * 10) := by exact_mod_cast hq
      omega
    have hv_eq : round_g v = ((py_round (v * 10) : ℤ) : ℚ) / 10 := by
      rw [round_g, if_neg (not_le.mpr h)]
    rw [hv_eq]
    by_cases h2 : 100 ≤ |((py_round (v * 10) : ℤ) : ℚ) / 10|
    · have habs : (1000 : ℤ) ≤ |py_round (v * 10)| := by
        rw [abs_div, show |(10:ℚ)| = 10 from by norm_num] at h2
        have hc : (1000 : ℚ) ≤ |((py_round (v * 10) : ℤ) : ℚ)| := by linarith
        rw [← Int.cast_abs] at hc
        exact_mod_cast hc
      have hm1 : py_round (v * 10) = 1000 ∨ py_round (v * 10) = -1000 := by
        rcases le_abs.mp habs with hcase | hcase
        · left; omega
        · right; omega
      rcases hm1 with he | he <;> rw [he]
      · rw [show (((1000 : ℤ) : ℚ)) / 10 = (100 : ℚ) from by norm_num, round_g_hundred]
      · rw [show (((-1000 : ℤ) : ℚ)) / 10 = (-100 : ℚ) from by norm_num, round_g_neg_hundred]
    · rw [round_g, if_neg h2,
        div_mul_cancel₀ ((py_round (v * 10) : ℤ) : ℚ) (by norm_num : (10:ℚ) ≠ 0),
        py_round_intCast]

/-- C9 witness: at 250 the result is the whole number 250; at 1.75 the
result is a one-decimal value (1.8), and re-rounding it changes nothing. -/
theorem c9_round_g_spec_witness :
    (∃ n : ℤ, round_g (250 : ℚ) = (n : ℚ)) ∧
    (∃ n : ℤ, round_g ((7 : ℚ)/4) = (n : ℚ) / 10) ∧
    round_g (round_g ((7 : ℚ)/4)) = round_g ((7 : ℚ)/4) :=
  ⟨(c9_round_g_spec 250).1
      (by rw [abs_of_nonneg (by norm_num : (0:ℚ) ≤ 250)]; norm_num),
   (c9_round_g_spec ((7 : ℚ)/4)).2.1
      (by rw [abs_of_nonneg (by norm_num : (0:ℚ) ≤ (7 : ℚ)/4)]; norm_num),
   (c9_round_g_spec ((7 : ℚ)/4)).2.2⟩

-- Display-string formatting (Artículo 9 and the linear-format helpers).

/-- Left-pad a digit string with zeros to a width of `n`. -/
def zero_pad (s : String) (n : ℕ) : String :=
  String.mk (List.replicate (n - s.length) '0') ++ s

/-- Digit part of Python fixed-point formatting: integer part, a point, and
the fraction digits of `a` scaled by `10 ^ n`, zero-padded to `n` digits. -/
def fmt_digits (a n : ℕ) : String :=
  if n = 0 then toString a
  else toString (a / 10 ^ n) ++ "." ++ zero_pad (toString (a % 10 ^ n)) n

/-- Python fixed-point f-string formatting of `v` to `n` decimal places
(round half to even at the last kept digit). -/
def fmt_fixed (v : ℚ) (n : ℕ) : String :=
  (if v < 0 then "-" else "") ++ fmt_digits (py_round (v * 10 ^ n)).natAbs n

/-- Python `str.rstrip` for a single character: drop every trailing `c`. -/
def rstrip (s : String) (c : Char) : String :=
  String.mk ((s.data.reverse.dropWhile (fun x => x = c)).reverse)

/-- `fmt_art9` (app.py:155-178): magnitudes of 10 and above format as the
rounded integer; magnitudes in [1, 10) format to one decimal with the
trailing zero and point stripped; below 1, two decimals for micronutrients
and one otherwise, in both cases without stripping. -/
def fmt_art9 (value : ℚ) (is_micro : Bool) : String :=
  if 1000 ≤ |value| then toString (py_round value)
  else if 100 ≤ |value| then toString (py_round value)
  else if 10 ≤ |value| then toString (py_round value)
  else if 1 ≤ |value| then rstrip (rstrip (fmt_fixed value 1) '0') '.'
  else if is_micro then fmt_fixed value 2
  else fmt_fixed value 1

lemma fmt_art9_micro_small : fmt_art9 ((4 : ℚ)/1000) true = "0.00" := by
  unfold fmt_art9
  rw [abs_of_nonneg (by norm_num : (0:ℚ) ≤ (4 : ℚ)/1000), if_neg (by norm_num),
    if_neg (by norm_num), if_neg (by norm_num), if_neg (by norm_num), if_pos rfl]
  unfold fmt_fixed
  rw [if_neg (by norm_num), py_round_eval ((4 : ℚ)/1000 * 10 ^ 2) 0 (by norm_num) (by norm_num)]
  rfl

lemma fmt_art9_macro_small : fmt_art9 ((4 : ℚ)/1000) false = "0.0" := by
  unfold fmt_art9
  rw [abs_of_nonneg (by norm_num : (0:ℚ) ≤ (4 : ℚ)/1000), if_neg (by norm_num),
    if_neg (by norm_num), if_neg (by norm_num), if_neg (by norm_num), if_neg (by decide)]
  unfold fmt_fixed
  rw [if_neg (by norm_num), py_round_eval ((4 : ℚ)/1000 * 10 ^ 1) 0 (by norm_num) (by norm_num)]
  rfl

lemma fmt_art9_796 : fmt_art9 ((796 : ℚ)/100) false = "8" := by
  unfold fmt_art9
  rw [abs_of_nonneg (by norm_num : (0:ℚ) ≤ (796 : ℚ)/100), if_neg (by norm_num),
    if_neg (by norm_num), if_neg (by norm_num), if_pos (by norm_num)]
  rw [show fmt_fixed ((796 : ℚ)/100) 1 = "8.0" from by
    unfold fmt_fixed
    rw [if_neg (by norm_num),
      py_round_eval ((796 : ℚ)/100 * 10 ^ 1) 80 (by norm_num) (by norm_num)]
    rfl]
  rfl

lemma fmt_art9_150 : fmt_art9 (150 : ℚ) false = "150" := by
  unfold fmt_art9
  rw [abs_of_nonneg (by norm_num : (0:ℚ) ≤ (150 : ℚ)), if_neg (by norm_num),
    if_pos (by norm_num), py_round_eval 150 150 (by norm_num) (by norm_num)]
  rfl

/-- C5 counterexample: `fmt_art9(7.96)` is `"8"`, not `"8.0"` — the ≥1
branch strips the trailing zero and point, so the claim's witness value
`"8.0"` fails on the code. -/
theorem c5_fmt_art9_796_counterexample :
    fmt_art9 ((796 : ℚ)/100) false = "8" ∧ ("8" : String) ≠ "8.0" :=
  ⟨fmt_art9_796, by decide⟩

/-- C5 (amended).  The Artículo 9 magnitude table at the spec's witness
points, with `fmt_art9(7.96) = "8"`: the one-decimal rendering `"8.0"` has
its trailing zero and point stripped by the ≥1 branch; the other three
witness points hold as claimed. -/
theorem c5_fmt_art9_points :
    fmt_art9 ((4 : ℚ)/1000) true = "0.00" ∧
    fmt_art9 ((4 : ℚ)/1000) false = "0.0" ∧
    fmt_art9 ((796 : ℚ)/100) false = "8" ∧
    fmt_art9 (150 : ℚ) false = "150" :=
  ⟨fmt_art9_micro_small, fmt_art9_macro_small, fmt_art9_796, fmt_art9_150⟩

-- Rich-text wrapper (linear variant), live definition at app.py:799-855.

/-- The weight tag attached to a token in the linear format's rich-text
stream; Python uses `None`, `False`, `True`, `"bold"` and `"emph"`. -/
inductive Weight
  | wNone
  | wFalse
  | wTrue
  | wBold
  | wEmph
deriving DecidableEq

/-- One `(text, weight)` token of the linear format. -/
structure Tok where
  text : String
  weight : Weight
deriving DecidableEq

/-- Cumulative measured pixel width of a token list, each token measured in
the font selected by its own weight; `μ` abstracts the text-metrics
provider `measure_text`, whose bounding-box widths are non-negative. -/
def width_sum (μ : Tok → ℕ) (ts : List Tok) : ℕ :=
  (ts.map μ).sum

/-- `measure_tokens` inside the live `draw_rich_wrapped_text`
(app.py:803-818): the sum of the tokens' widths plus, on the first line
only, the first-line offset `first_line_x − x` (`off` is that difference,
taken as 0 when `first_line_x` is None). -/
def measure_tokens (μ : Tok → ℕ) (off : ℤ) (is_first_line : Bool) (ts : List Tok) : ℤ :=
  (width_sum μ ts : ℤ) + (if is_first_line then off else 0)

/-- Line-construction loop of the live `draw_rich_wrapped_text`
(app.py:820-835): empty-text tokens are skipped; a token whose tentative
line measures within `max_w` is appended to the current line; otherwise the
current line (when non-empty) is closed and the token starts the next line;
the trailing current line is flushed at the end. -/
def wrap_lines_aux (μ : Tok → ℕ) (off maxW : ℤ) :
    List Tok → List (List Tok) → List Tok → List (List Tok)
  | [], lines, current => if current = [] then lines else lines ++ [current]
  | t :: ts, lines, current =>
    if t.text = "" then wrap_lines_aux μ off maxW ts lines current
    else if measure_tokens μ off lines.isEmpty (current ++ [t]) ≤ maxW then
      wrap_lines_aux μ off maxW ts lines (current ++ [t])
    else if current = [] then
      wrap_lines_aux μ off maxW ts lines [t]
    else
      wrap_lines_aux μ off maxW ts (lines ++ [current]) [t]

/-- Line structure computed by the live `draw_rich_wrapped_text`
(app.py:799-855); the rendering pass draws exactly these lines. -/
def draw_rich_wrapped_text (μ : Tok → ℕ) (off maxW : ℤ) (tokens : List Tok) :
    List (List Tok) :=
  wrap_lines_aux μ off maxW tokens [] []

lemma width_sum_append (μ : Tok → ℕ) (a b : List Tok) :
    width_sum μ (a ++ b) = width_sum μ a + width_sum μ b := by
  simp [width_sum]

lemma wrap_aux_one_line (μ : Tok → ℕ) (off maxW : ℤ) (ts : List Tok) :
    ∀ c : List Tok, (∀ t ∈ ts, t.text ≠ "") →
      measure_tokens μ off true (c ++ ts) ≤ maxW → c ++ ts ≠ [] →
      wrap_lines_aux μ off maxW ts [] c = [c ++ ts] := by
  induction ts with
  | nil =>
    intro c _ _ hne
    rw [List.append_nil] at hne ⊢
    simp only [wrap_lines_aux, if_neg hne, List.nil_append]
  | cons t ts ih =>
    intro c hall hm
    intro _
    have ht : t.text ≠ "" := hall t (List.mem_cons_self t ts)
    have hm' : measure_tokens μ off true ((c ++ [t]) ++ ts) ≤ maxW := by
      rw [List.append_assoc, List.singleton_append]
      exact hm
    have hmt : measure_tokens μ off true (c ++ [t]) ≤ maxW := by
      unfold measure_tokens at hm' ⊢
      rw [width_sum_append] at hm' ⊢
      rw [width_sum_append] at hm'
      have : (0 : ℤ) ≤ (width_sum μ ts : ℤ) := Int.ofNat_nonneg _
      push_cast at hm' ⊢
      linarith
    simp only [wrap_lines_aux, if_neg ht, List.isEmpty_nil]
    rw [if_pos hmt,
      ih (c ++ [t]) (fun x hx => hall x (List.mem_cons_of_mem t hx)) hm' (by simp),
      List.append_assoc, List.singleton_append]

lemma wrap_aux_break (μ : Tok → ℕ) (off maxW : ℤ) (ts : List Tok) :
    ∀ c u, (∀ t ∈ ts, t.text ≠ "") → u.text ≠ "" → c ++ ts ≠ [] →
      measure_tokens μ off true (c ++ ts) ≤ maxW →
      maxW < measure_tokens μ off true ((c ++ ts) ++ [u]) →
      wrap_lines_aux μ off maxW (ts ++ [u]) [] c = [c ++ ts, [u]] := by
  induction ts with
  | nil =>
    intro c u _ hu hne _ hgt
    rw [List.append_nil] at hne hgt ⊢
    simp only [List.nil_append]
    simp only [wrap_lines_aux, if_neg hu, List.isEmpty_nil]
    rw [if_neg (not_le.mpr hgt), if_neg hne]
    simp [wrap_lines_aux]
  | cons t ts ih =>
    intro c u hall hu hne hle hgt
    have ht : t.text ≠ "" := hall t (List.mem_cons_self t ts)
    have hle' : measure_tokens μ off true ((c ++ [t]) ++ ts) ≤ maxW := by
      rw [List.append_assoc, List.singleton_append]
      exact hle
    have hgt' : maxW < measure_tokens μ off true (((c ++ [t]) ++ ts) ++ [u]) := by
      simpa using hgt
    have hmt : measure_tokens μ off true (c ++ [t]) ≤ maxW := by
      unfold measure_tokens at hle' ⊢
      rw [width_sum_append] at hle' ⊢
      rw [width_sum_append] at hle'
      have : (0 : ℤ) ≤ (width_sum μ ts : ℤ) := Int.ofNat_nonneg _
      push_cast at hle' ⊢
      linarith
    simp only [List.cons_append, wrap_lines_aux, if_neg ht, List.isEmpty_nil, List.append_eq]
    rw [if_pos hmt,
      ih (c ++ [t]) u (fun x hx => hall x (List.mem_cons_of_mem t hx)) hu (by simp) hle' hgt']
    simp

lemma wrap_single (μ : Tok → ℕ) (off maxW : ℤ) (t : Tok) (ht : t.text ≠ "") :
    draw_rich_wrapped_text μ off maxW [t] = [[t]] := by
  unfold draw_rich_wrapped_text
  simp only [wrap_lines_aux, if_neg ht, List.isEmpty_nil, List.nil_append]
  by_cases hm : measure_tokens μ off true [t] ≤ maxW
  · rw [if_pos hm]
    simp
  · rw [if_neg hm]
    simp

/-- C7.  The live rich-text wrapper is greedy on measured width: a
non-empty token sequence measuring exactly `max_w` (first-line offset
included) stays on one line; appending one more non-empty token of
positive width forces exactly one extra line holding that token; a single
token wider than `max_w` occupies its own line, unsplit; and the first-line
offset is added to the first line's measured width, leaving the `max_w`
threshold itself unchanged. -/
theorem c7_wrapper_greedy (μ : Tok → ℕ) (off maxW : ℤ) :
    (∀ ts : List Tok, ts ≠ [] → (∀ t ∈ ts, t.text ≠ "") →
        measure_tokens μ off true ts = maxW →
        draw_rich_wrapped_text μ off maxW ts = [ts]) ∧
    (∀ (ts : List Tok) (u : Tok), ts ≠ [] → (∀ t ∈ ts, t.text ≠ "") →
        u.text ≠ "" → 0 < μ u → measure_tokens μ off true ts = maxW →
        draw_rich_wrapped_text μ off maxW (ts ++ [u]) = [ts, [u]]) ∧
    (∀ t : Tok, t.text ≠ "" → maxW < (μ t : ℤ) →
        draw_rich_wrapped_text μ off maxW [t] = [[t]]) ∧
    (∀ (b : Bool) (ts : List Tok),
        measure_tokens μ off b ts = (width_sum μ ts : ℤ) + (if b then off else 0)) := by
  refine ⟨?_, ?_, ?_, fun b ts => rfl⟩
  · intro ts hne hall hm
    have h := wrap_aux_one_line μ off maxW ts [] hall
      (by rw [List.nil_append]; exact le_of_eq hm) (by rwa [List.nil_append])
    rw [List.nil_append] at h
    exact h
  · intro ts u hne hall hu hw hm
    have hmu : (0 : ℤ) < (μ u : ℤ) := by exact_mod_cast hw
    have hgt : maxW < measure_tokens μ off true (ts ++ [u]) := by
      have hsplit : measure_tokens μ off true (ts ++ [u])
          = measure_tokens μ off true ts + (μ u : ℤ) := by
        unfold measure_tokens
        rw [width_sum_append]
        have : width_sum μ [u] = μ u := by simp [width_sum]
        rw [this]
        push_cast
        ring
      rw [hsplit, hm]
      linarith
    have h := wrap_aux_break μ off maxW ts [] u hall hu
      (by rwa [List.nil_append]) (by rw [List.nil_append]; exact le_of_eq hm)
      (by rw [List.nil_append]; exact hgt)
    rw [List.nil_append] at h
    exact h
  · intro t ht _
    exact wrap_single μ off maxW t ht

/-- A concrete width model for the wrapper witness: ten pixels per
character of the token's text. -/
def demo_width (t : Tok) : ℕ := t.text.length * 10

def tokA : Tok := ⟨"Calorías", Weight.wEmph⟩

def tokB : Tok := ⟨" 261", Weight.wEmph⟩

def tokU : Tok := ⟨", ", Weight.wFalse⟩

def tokWide : Tok := ⟨"Información nutricional completa", Weight.wBold⟩

/-- C7 witness: with 10 px per character, first-line offset 7 and
`max_w = 127`, the sequence measuring exactly 127 stays on one line, one
more token breaks to a second line, and an oversized token sits alone. -/
theorem c7_wrapper_greedy_witness :
    draw_rich_wrapped_text demo_width 7 127 [tokA, tokB] = [[tokA, tokB]] ∧
    draw_rich_wrapped_text demo_width 7 127 [tokA, tokB, tokU] = [[tokA, tokB], [tokU]] ∧
    draw_rich_wrapped_text demo_width 7 127 [tokWide] = [[tokWide]] ∧
    measure_tokens demo_width 7 true [tokA] = (width_sum demo_width [tokA] : ℤ) + 7 := by
  have h := c7_wrapper_greedy demo_width 7 127
  refine ⟨h.1 [tokA, tokB] (by decide) (by decide) (by decide), ?_,
    h.2.2.1 tokWide (by decide) (by decide), by simpa using h.2.2.2 true [tokA]⟩
  exact h.2.1 [tokA, tokB] tokU (by decide) (by decide) (by decide) (by decide) (by decide)

-- Column solver for the vertical table variants (app.py:539-590).

/-- The fonts the column solver measures with. -/
inductive Font
  | label
  | label_emph_b
  | small_b
deriving DecidableEq

def BORDER_W : ℤ := 6

def CELL_PAD_X : ℤ := 22

def GRID_W : ℤ := 3

def INDENT_PX : ℕ := 28

/-- Labels measured in the enlarged emphasis font (app.py:545-550). -/
def emph_labels : List String :=
  ["Grasa saturada", "Grasas trans", "Azúcares añadidos", "Sodio"]

/-- Widest stripped label width plus its indent offset (app.py:540-555). -/
def name_w_max (measure : String → Font → ℕ)
    (labels_with_indent : List (String × ℕ)) : ℕ :=
  labels_with_indent.foldl
    (fun acc li =>
      max acc
        (measure li.1.trim
            (if li.1.trim ∈ emph_labels then Font.label_emph_b else Font.label)
          + li.2 * INDENT_PX)) 0

/-- Widest string of a value column at a given font (app.py:557-567). -/
def max_w_list (measure : String → Font → ℕ) (f : Font) (l : List String) : ℕ :=
  l.foldl (fun acc t => max acc (measure t f)) 0

/-- `column_labels` (app.py:531-532). -/
def column_labels (is_liquid : Bool) : String × String :=
  (if is_liquid then "Por 100 mL" else "Por 100 g", "Por porción")

/-- `final_name_width` (app.py:573). -/
def final_name_width (measure : String → Font → ℕ)
    (labels_with_indent : List (String × ℕ)) : ℤ :=
  (name_w_max measure labels_with_indent : ℤ) + 15 + GRID_W

/-- `x0` (app.py:579). -/
def col_x0 : ℤ := BORDER_W + CELL_PAD_X

/-- `x1` (app.py:580): name column plus the fixed 35 px name→values gap. -/
def col_x1 (measure : String → Font → ℕ)
    (labels_with_indent : List (String × ℕ)) : ℤ :=
  col_x0 + final_name_width measure labels_with_indent + 35

/-- `col100_width` (app.py:581): the wider of the per-100 values and the
per-100 column header, padded by 15. -/
def col100_width (measure : String → Font → ℕ) (is_liquid : Bool)
    (v100_list : List String) : ℤ :=
  (max (max_w_list measure Font.label v100_list)
      (measure (column_labels is_liquid).1 Font.small_b) : ℕ) + 15

/-- `x2` (app.py:582): per-100 column plus the fixed 20 px values gap. -/
def col_x2 (measure : String → Font → ℕ) (is_liquid : Bool)
    (labels_with_indent : List (String × ℕ)) (v100_list : List String) : ℤ :=
  col_x1 measure labels_with_indent + col100_width measure is_liquid v100_list + 20

/-- `colpp_width` (app.py:583): the wider of the per-portion values and the
per-portion column header, padded by 4. -/
def colpp_width (measure : String → Font → ℕ) (is_liquid : Bool)
    (vpp_list : List String) : ℤ :=
  (max (max_w_list measure Font.label vpp_list)
      (measure (column_labels is_liquid).2 Font.small_b) : ℕ) + 4

/-- `x3` (app.py:584): per-portion column plus the trailing 15 px margin. -/
def col_x3 (measure : String → Font → ℕ) (is_liquid : Bool)
    (labels_with_indent : List (String × ℕ)) (v100_list vpp_list : List String) : ℤ :=
  col_x2 measure is_liquid labels_with_indent v100_list
    + colpp_width measure is_liquid vpp_list + 15

/-- `compute_cols_vertical` (app.py:539-590): the four x-offsets plus the
resolved canvas width, grown by two borders past `x3` when the nominal
width `W` is too small. -/
def compute_cols_vertical (measure : String → Font → ℕ) (is_liquid : Bool)
    (labels_with_indent : List (String × ℕ)) (v100_list vpp_list : List String)
    (W : ℤ) : List ℤ × ℤ :=
  if col_x3 measure is_liquid labels_with_indent v100_list vpp_list > W then
    ([col_x0, col_x1 measure labels_with_indent,
      col_x2 measure is_liquid labels_with_indent v100_list,
      col_x3 measure is_liquid labels_with_indent v100_list vpp_list],
     col_x3 measure is_liquid labels_with_indent v100_list vpp_list + BORDER_W * 2)
  else
    ([col_x0, col_x1 measure labels_with_indent,
      col_x2 measure is_liquid labels_with_indent v100_list,
      col_x3 measure is_liquid labels_with_indent v100_list vpp_list], W)

/-- C8.  The column solver returns four strictly increasing x-offsets
separated by the measured column widths plus the fixed 35/20 px gaps and
the trailing 15 px margin, and a resolved width that always accommodates
the last offset: the nominal width is kept when it suffices and otherwise
the canvas grows, never silently overflowing. -/
theorem c8_compute_cols_spec (measure : String → Font → ℕ) (is_liquid : Bool)
    (labels_with_indent : List (String × ℕ)) (v100_list vpp_list : List String)
    (W : ℤ) :
    ∃ x0 x1 x2 x3 Wr : ℤ,
      compute_cols_vertical measure is_liquid labels_with_indent v100_list vpp_list W
        = ([x0, x1, x2, x3], Wr) ∧
      x0 < x1 ∧ x1 < x2 ∧ x2 < x3 ∧
      x1 = x0 + ((name_w_max measure labels_with_indent : ℤ) + 15 + GRID_W) + 35 ∧
      x2 = x1 + ((max (max_w_list measure Font.label v100_list)
          (measure (column_labels is_liquid).1 Font.small_b) : ℕ) + 15 : ℤ) + 20 ∧
      x3 = x2 + ((max (max_w_list measure Font.label vpp_list)
          (measure (column_labels is_liquid).2 Font.small_b) : ℕ) + 4 : ℤ) + 15 ∧
      x3 ≤ Wr ∧
      Wr = (if W < x3 then x3 + BORDER_W * 2 else W) := by
  have h01 : col_x0 < col_x1 measure labels_with_indent := by
    unfold col_x1 final_name_width GRID_W
    have := Int.ofNat_nonneg (name_w_max measure labels_with_indent)
    linarith
  have h12 : col_x1 measure labels_with_indent
      < col_x2 measure is_liquid labels_with_indent v100_list := by
    unfold col_x2 col100_width
    have := Int.ofNat_nonneg
      (max (max_w_list measure Font.label v100_list)
        (measure (column_labels is_liquid).1 Font.small_b))
    linarith
  have h23 : col_x2 measure is_liquid labels_with_indent v100_list
      < col_x3 measure is_liquid labels_with_indent v100_list vpp_list := by
    unfold col_x3 colpp_width
    have := Int.ofNat_nonneg
      (max (max_w_list measure Font.label vpp_list)
        (measure (column_labels is_liquid).2 Font.small_b))
    linarith
  by_cases h : col_x3 measure is_liquid labels_with_indent v100_list vpp_list > W
  · refine ⟨col_x0, col_x1 measure labels_with_indent,
      col_x2 measure is_liquid labels_with_indent v100_list,
      col_x3 measure is_liquid labels_with_indent v100_list vpp_list,
      col_x3 measure is_liquid labels_with_indent v100_list vpp_list + BORDER_W * 2,
      by unfold compute_cols_vertical; rw [if_pos h], h01, h12, h23, rfl, rfl, rfl,
      by unfold BORDER_W; linarith, by rw [if_pos h]⟩
  · refine ⟨col_x0, col_x1 measure labels_with_indent,
      col_x2 measure is_liquid labels_with_indent v100_list,
      col_x3 measure is_liquid labels_with_indent v100_list vpp_list, W,
      by unfold compute_cols_vertical; rw [if_neg h], h01, h12, h23, rfl, rfl, rfl,
      not_lt.mp h, by rw [if_neg h]⟩

-- Linear-format (Fig. 5) token pass and Python name resolution.

/-- `fmt_int` (app.py:97-99). -/
def fmt_int (v : ℚ) : String := toString (py_round v)

/-- `fmt_one_decimal` (app.py:107-119): integers render bare, other values
render with exactly one decimal, no stripping. -/
def fmt_one_decimal (v : ℚ) : String :=
  if v.den = 1 then toString v.num else fmt_fixed v 1

/-- `fmt_carbs_rule` (app.py:121-134): same rendering as
`fmt_one_decimal`, kept as the separate formatting path the source has. -/
def fmt_carbs_rule (v : ℚ) : String :=
  if v.den = 1 then toString v.num else fmt_fixed v 1

/-- `fmt_kcal` (app.py:79-85): zero renders as "0", otherwise one decimal
with the trailing zero and point stripped. -/
def fmt_kcal (v : ℚ) : String :=
  if v = 0 then "0" else rstrip (rstrip (fmt_fixed v 1) '0') '.'

/-- The numeric input state feeding the CÁLCULOS section (app.py:340-423):
per-100 values (already coerced to numbers), the portion size, the macro
selection and the polyalcohols toggle and value. -/
structure Inputs where
  include_poly : Bool
  selected_macros : List String
  portion_size : ℚ
  fat_total_100 : ℚ
  sat_fat_100 : ℚ
  trans_fat_100_mg : ℚ
  mono_fat_100 : ℚ
  poly_fat_100 : ℚ
  carb_100 : ℚ
  sug_total_100 : ℚ
  sug_added_100 : ℚ
  fiber_100 : ℚ
  protein_100 : ℚ
  sodium_100_mg : ℚ
  poly_100 : ℚ

/-- `macro_order` (app.py:224-234). -/
def macro_order : List String :=
  ["Grasa total", "Grasa saturada", "Grasas trans", "Carbohidratos totales",
   "Fibra dietaria", "Azúcares totales", "Azúcares añadidos", "Proteína", "Sodio"]

/-- The module-level bindings produced by the CÁLCULOS section
(app.py:424-504) that the per-100 token pass of `draw_fig5` can reference,
keyed by Python variable name.  `poly_100_r` is absent: no assignment in
the module ever binds that name (the rounding assignments bind
`poly_fat_100_r` for the polyunsaturated fat and plain `poly_100` for the
raw polyalcohols input, but never `poly_100_r`). -/
def module_globals (i : Inputs) : List (String × ℚ) :=
  [("kcal_100", round_kcal (kcal_from_macros i.fat_total_100 i.carb_100 i.protein_100 0 0)),
   ("fat_total_100_r", fat_total_100_r i.fat_total_100),
   ("sat_fat_100_r", sat_fat_100_r i.sat_fat_100),
   ("trans_fat_100_mg_r", (trans_fat_100_mg_r i.trans_fat_100_mg : ℚ)),
   ("mono_fat_100_r", mono_fat_100_r i.mono_fat_100),
   ("poly_fat_100_r", poly_fat_100_r i.poly_fat_100),
   ("carb_100_r", carb_100_r i.carb_100),
   ("sug_total_100_r", sug_total_100_r i.sug_total_100),
   ("sug_added_100_r", sug_added_100_r i.sug_added_100),
   ("fiber_100_r", fiber_100_r i.fiber_100),
   ("protein_100_r", protein_100_r i.protein_100),
   ("sodium_100_mg_r", (sodium_100_mg_r i.sodium_100_mg : ℚ)),
   ("poly_100", i.poly_100)]

/-- Python name resolution: evaluating an unbound name raises `NameError`,
modelled as an `Except.error` carrying the offending name. -/
def getVar (g : List (String × ℚ)) (name : String) : Except String ℚ :=
  match g.lookup name with
  | some v => Except.ok v
  | none => Except.error name

/-- `tokens_item` inside `draw_fig5` (app.py:1190-1196). -/
def tokens_item (label value u : String) (flag : Weight) : List Tok :=
  [⟨label, flag⟩, ⟨" ", flag⟩, ⟨value, flag⟩]
    ++ (if u = "" then [] else [⟨" " ++ u, flag⟩])

/-- The `(", ", False)` separator token of `draw_fig5`. -/
def comma_tok : Tok := ⟨", ", Weight.wFalse⟩

/-- The per-100 token pass of `draw_fig5` (app.py:1198-1229) with Python's
name resolution explicit: every module-level variable is fetched from
`module_globals`, and an unbound name aborts the render with its
`NameError`.  The trailing micronutrient tokens (app.py:1232-1238) read a
dictionary with `.get` defaults, cannot raise, and are not modelled. -/
def fig5_tokens_100 (i : Inputs) : Except String (List Tok) := do
  let g := module_globals i
  let kcal100 ← getVar g "kcal_100"
  let t0 := tokens_item "Calorías" (fmt_kcal kcal100) "kcal" Weight.wEmph ++ [comma_tok]
  let t1 ← if "Grasa total" ∈ i.selected_macros then do
      let v ← getVar g "fat_total_100_r"
      pure (tokens_item "Grasa total" (fmt_one_decimal v) "g" Weight.wNone ++ [comma_tok])
    else pure []
  let t2 ← if "Grasa saturada" ∈ i.selected_macros then do
      let v ← getVar g "sat_fat_100_r"
      pure (tokens_item "Grasa saturada" (fmt_one_decimal v) "g" Weight.wEmph ++ [comma_tok])
    else pure []
  let t3 ← if "Grasas trans" ∈ i.selected_macros then do
      let v ← getVar g "trans_fat_100_mg_r"
      pure (tokens_item "Grasas trans" (fmt_int v) "mg" Weight.wEmph ++ [comma_tok])
    else pure []
  let t4 ← if "Carbohidratos totales" ∈ i.selected_macros then do
      let v ← getVar g "carb_100_r"
      pure (tokens_item "Carbohidratos totales" (fmt_carbs_rule v) "g" Weight.wNone
        ++ [comma_tok])
    else pure []
  let t5 ← if "Fibra dietaria" ∈ i.selected_macros then do
      let v ← getVar g "fiber_100_r"
      pure (tokens_item "Fibra dietaria" (fmt_one_decimal v) "g" Weight.wNone ++ [comma_tok])
    else pure []
  let t6 ← if i.include_poly then do
      let v ← getVar g "poly_100_r"
      pure (tokens_item "Polialcoholes" (fmt_one_decimal v) "g" Weight.wNone ++ [comma_tok])
    else pure []
  let t7 ← if "Azúcares totales" ∈ i.selected_macros then do
      let v ← getVar g "sug_total_100_r"
      pure (tokens_item "Azúcares totales" (fmt_one_decimal v) "g" Weight.wNone ++ [comma_tok])
    else pure []
  let t8 ← if "Azúcares añadidos" ∈ i.selected_macros then do
      let v ← getVar g "sug_added_100_r"
      pure (tokens_item "Azúcares añadidos" (fmt_one_decimal v) "g" Weight.wEmph ++ [comma_tok])
    else pure []
  let t9 ← if "Proteína" ∈ i.selected_macros then do
      let v ← getVar g "protein_100_r"
      pure (tokens_item "Proteína" (fmt_one_decimal v) "g" Weight.wNone ++ [comma_tok])
    else pure []
  let t10 ← if "Sodio" ∈ i.selected_macros then do
      let v ← getVar g "sodium_100_mg_r"
      pure (tokens_item "Sodio" (fmt_int v) "mg" Weight.wEmph ++ [comma_tok])
    else pure []
  pure (t0 ++ t1 ++ t2 ++ t3 ++ t4 ++ t5 ++ t6 ++ t7 ++ t8 ++ t9 ++ t10)

/-- Whether an `Except` computation finished without raising. -/
def except_ok {ε α : Type} : Except ε α → Bool
  | Except.ok _ => true
  | Except.error _ => false

/-- The sidebar's default numeric inputs (app.py:196-423) with every macro
selected and the polyalcohols checkbox ticked. -/
def poly_inputs : Inputs :=
  ⟨true, macro_order, 40, 13, 6, 820, 0, 0, 31, 5, 2, 4/5, 5, 560, 0⟩

/-- The same inputs with the polyalcohols checkbox off. -/
def no_poly_inputs : Inputs :=
  ⟨false, macro_order, 40, 13, 6, 820, 0, 0, 31, 5, 2, 4/5, 5, 560, 0⟩

/-- C2.  The linear variant with polyalcohols included does NOT render: its
token pass references the module variable `poly_100_r`, which no assignment
in the module binds, so the render dies with a `NameError` instead of
producing an image; with the checkbox off the same pass completes.  This
contradicts the "no fatal error paths" contract. -/
theorem c2_fig5_poly_name_error :
    fig5_tokens_100 poly_inputs = Except.error "poly_100_r" ∧
    (module_globals poly_inputs).lookup "poly_100_r" = none ∧
    except_ok (fig5_tokens_100 no_poly_inputs) = true :=
  ⟨rfl, rfl, rfl⟩

end Tabla
